import Mathlib

/-!
Shallow embedding of `flaskext/payments.py` (Flask-Payment).

Python objects with open attribute bags are modelled as association lists
from attribute names to values: a `Transaction` value below is the
`__dict__` of a `Transaction` instance, and attribute read/write follow
Python dict semantics (overwrite in place, append for a fresh key).

Raised exceptions are modelled with `Except`.  Note that the source raises
`PaymentTransactionValidationError()`, a name that is defined nowhere in the
module (the module defines `PaymentsValidationError` and never raises it);
in Python evaluating an undefined name raises `NameError`, and the model
records that as `PayErr.nameError`.  A missing attribute access surfaces as
`PayErr.attributeError`, a failed dict lookup as `PayErr.keyError`.

The external `paypal` library is not part of this repository: the
processor-facing calls (`set_express_checkout`,
`generate_express_checkout_redirect_url`, `do_express_checkout_payment`)
are a parameter of the model (`PayPalInterface`), and the `PayPalConfig`
constructor is modelled from the spec (see `PayPalConfig.make`).
-/

/-- Response of the external `set_express_checkout` call: the code reads `r.token`. -/
structure SetResp where
  token : String
deriving DecidableEq

/-- Response of the external `do_express_checkout_payment` call: the code reads
`r.TRANSACTIONID`. -/
structure DoResp where
  TRANSACTIONID : String
deriving DecidableEq

/-- Python values the module stores on (or reads from) a transaction. -/
inductive PyVal where
  | str : String → PyVal
  | num : Int → PyVal
  | bool : Bool → PyVal
  | pynone : PyVal
  | resp : DoResp → PyVal
deriving DecidableEq

/-- A `Transaction` instance is its open attribute bag (`self.__dict__`). -/
abbrev Transaction := List (String × PyVal)

/-- Python attribute read `t.k`: first entry with key `k`, if any
(a missing key is an `AttributeError` at the use site). -/
def getattr : Transaction → String → Option PyVal
  | [], _ => none
  | kv :: rest, k => if kv.1 = k then some kv.2 else getattr rest k

/-- Python attribute write `t.k = v`: overwrite the entry in place if the key
exists, else append it (dict insertion-order semantics). -/
def setattr : Transaction → String → PyVal → Transaction
  | [], k, v => [(k, v)]
  | kv :: rest, k, v => if kv.1 = k then (k, v) :: rest else kv :: setattr rest k v

/-- Source `Transaction.validate`: the baseline generic validation, `return True`. -/
def Transaction.validate (t : Transaction) : Bool :=
  true

/-- Source `Transaction.__init__(self, **kwargs)`:
`self.__dict__.update(kwargs)` followed by `self.authorised = False`. -/
def Transaction.init (kwargs : List (String × PyVal)) : Transaction :=
  setattr (kwargs.foldl (fun d kv => setattr d kv.1 kv.2) []) "authorised" (PyVal.bool false)

/-- Exception kinds the embedded code can raise.  The first three are the
module's own exception classes; the rest are Python built-ins the code
can hit (`nameError` and `attributeError` carry the offending name). -/
inductive PayErr where
  | configurationError
  | validationError
  | gatewayError
  | nameError : String → PayErr
  | valueError : PayErr
  | attributeError : String → PayErr
  | keyError : PayErr
deriving DecidableEq

/-- What the facade needs from the bound gateway object (duck typing in the
source: `self.gateway.setupRedirect(trans)` and `self.gateway.authorise(trans)`).
`authorise` may return `none`, modelling a Python method returning `None`. -/
structure Gateway where
  setupRedirect : Transaction → Except PayErr Transaction
  authorise : Transaction → Except PayErr (Option Transaction)

/-- Source `Payments.setupRedirect`: generic validation gate, then delegate.
`trans.validate()` is dynamically dispatched on the transaction object, so the
transaction's validate method is a parameter; the baseline is
`Transaction.validate`.  The `else` branch raises the undefined name
`PaymentTransactionValidationError`, i.e. a `NameError`. -/
def Payments.setupRedirect (gw : Gateway) (validate : Transaction → Bool)
    (trans : Transaction) : Except PayErr Transaction :=
  if validate trans then gw.setupRedirect trans
  else .error (.nameError "PaymentTransactionValidationError")

/-- Source `Payments.authorise`: generic validation gate, then delegate; same raise of
the undefined name on validation failure. -/
def Payments.authorise (gw : Gateway) (validate : Transaction → Bool)
    (trans : Transaction) : Except PayErr (Option Transaction) :=
  if validate trans then gw.authorise trans
  else .error (.nameError "PaymentTransactionValidationError")

/-- The external `paypal` interface the gateway calls, as a record of the three
processor operations the code uses (network behaviour is the stub's). -/
structure PayPalInterface where
  set_express_checkout : List (String × PyVal) → SetResp
  generate_express_checkout_redirect_url : String → String
  do_express_checkout_payment : PyVal → String → PyVal → PyVal → String → DoResp

/-- Source `keycase(key)` from `_setupExpressTransfer`: Python
`key.replace('_','').upper()` — delete every underscore, upper-case. -/
def keycase (key : String) : String :=
  String.mk ((key.data.filter (fun c => c ≠ '_')).map Char.toUpper)

/-- The `params` dict built in `_setupExpressTransfer`:
`dict([(keycase(k), v) for k, v in trans.__dict__.iteritems()])`.
`dict(...)` deduplicates keys — each pair is inserted in turn and a later
pair with an already-present key overwrites its value — so two fields that
collide under `keycase` leave only the later field's value in the dict. -/
def expressParams (trans : Transaction) : List (String × PyVal) :=
  (trans.map (fun kv => (keycase kv.1, kv.2))).foldl (fun d kv => setattr d kv.1 kv.2) []

/-- Source `PayPalGateway._setupExpressTransfer`: send the keycased field bag to
`SetExpressCheckout`, then attach `token` and `next` to the transaction. -/
def PayPalGateway._setupExpressTransfer (iface : PayPalInterface)
    (trans : Transaction) : Except PayErr Transaction :=
  let r := iface.set_express_checkout (expressParams trans)
  let t1 := setattr trans "token" (PyVal.str r.token)
  let t2 := setattr t1 "next"
    (PyVal.str (iface.generate_express_checkout_redirect_url r.token))
  .ok t2

/-- Source `PayPalGateway.setupRedirect`: Express goes to `_setupExpressTransfer`,
anything else raises the undefined name (a `NameError`); reading `trans.type`
on a transaction without a `type` field is an `AttributeError`. -/
def PayPalGateway.setupRedirect (iface : PayPalInterface)
    (trans : Transaction) : Except PayErr Transaction :=
  match getattr trans "type" with
  | none => .error (.attributeError "type")
  | some v =>
    if v = PyVal.str "Express" then PayPalGateway._setupExpressTransfer iface trans
    else .error (.nameError "PaymentTransactionValidationError")

/-- Source `PayPalGateway._authoriseExpress(trans, action='Sale')`: call
`DoExpressCheckoutPayment(token=trans.token, PAYMENTACTION=action,
PAYERID=trans.payerid, AMT=trans.amt, CURRENCYCODE='JPY')`, then attach
`transactionid`, `raw` and set `authorised = True`.  Attribute reads happen in
the source's argument order. -/
def PayPalGateway._authoriseExpress (iface : PayPalInterface)
    (trans : Transaction) (action : String) : Except PayErr Transaction :=
  match getattr trans "token" with
  | none => .error (.attributeError "token")
  | some tok =>
    match getattr trans "payerid" with
    | none => .error (.attributeError "payerid")
    | some payerid =>
      match getattr trans "amt" with
      | none => .error (.attributeError "amt")
      | some amt =>
        let r := iface.do_express_checkout_payment tok action payerid amt "JPY"
        let t1 := setattr trans "transactionid" (PyVal.str r.TRANSACTIONID)
        let t2 := setattr t1 "raw" (PyVal.resp r)
        let t3 := setattr t2 "authorised" (PyVal.bool true)
        .ok t3

/-- Source `PayPalGateway.authorise`: Express delegates to `_authoriseExpress` (with
the default `action='Sale'`); Direct is `pass  # not implemented yet`, i.e. the
method falls through and returns `None`; anything else raises the undefined
name (a `NameError`). -/
def PayPalGateway.authorise (iface : PayPalInterface)
    (trans : Transaction) : Except PayErr (Option Transaction) :=
  match getattr trans "type" with
  | none => .error (.attributeError "type")
  | some v =>
    if v = PyVal.str "Express" then
      (PayPalGateway._authoriseExpress iface trans "Sale").map some
    else if v = PyVal.str "Direct" then
      .ok none
    else .error (.nameError "PaymentTransactionValidationError")

/-- The PayPal gateway instance as the duck-typed object the facade binds. -/
def PayPalGateway.asGateway (iface : PayPalInterface) : Gateway :=
  ⟨PayPalGateway.setupRedirect iface, PayPalGateway.authorise iface⟩

/-- The resolved PayPal configuration held by a constructed gateway. -/
structure PPConfig where
  API_ENVIRONMENT : String
  API_USERNAME : String
  API_PASSWORD : String
  API_SIGNATURE : String
deriving DecidableEq

/-- A Flask application, reduced to what the module reads:
`app.config.get(key)`, returning `None` for an absent key. -/
structure App where
  config : String → Option String

/-- Modelled from the spec: the external `PayPalConfig` constructor (from the
`paypal` library, which is not part of this repository) performs the gateway's
"own configuration validation (credentials present)"; per the source comment
"Need to catch value error and throw as config error", a missing required
credential raises a `ValueError`. -/
def PayPalConfig.make (environment : String) (username password signature : Option String) :
    Except PayErr PPConfig :=
  match username, password, signature with
  | some u, some p, some s => .ok ⟨environment, u, p, s⟩
  | _, _, _ => .error .valueError

/-- Source `PayPalGateway._init_API`: build the `PayPalConfig` from
`app.config.get(...)` values (environment defaults to `'sandbox'`). -/
def PayPalGateway._init_API (app : App) : Except PayErr PPConfig :=
  PayPalConfig.make ((app.config "PAYMENT_API_ENVIRONMENT").getD "sandbox")
    (app.config "PAYPAL_API_USER") (app.config "PAYPAL_API_PWD")
    (app.config "PAYPAL_API_SIGNATURE")

/-- Python `try: ... except KeyError: raise PaymentsConfigurationError`:
convert a `KeyError` outcome, let every other outcome through unchanged. -/
def exceptKeyError (r : Except PayErr PPConfig) : Except PayErr PPConfig :=
  match r with
  | .error .keyError => .error .configurationError
  | other => other

/-- Source `PayPalGateway.__init__`: `try: self._init_API(app) except KeyError: raise
PaymentsConfigurationError` — only `KeyError` is converted; any other
exception propagates unchanged. -/
def PayPalGateway.init (app : App) : Except PayErr PPConfig :=
  exceptKeyError (PayPalGateway._init_API app)

/-- Source `Payments._init_gateway`: `gateways = {'PayPal': PayPalGateway}` then
`self.gateway = gateways[app.config.get('PAYMENT_API')](app)` inside
`try ... except KeyError: raise PaymentsConfigurationError`.  A lookup in the
one-key dict raises `KeyError` unless the configured value equals `'PayPal'`
(an absent key gives `None`, also unregistered); the `except KeyError` wraps
both the lookup and the constructor call. -/
def Payments._init_gateway (app : App) : Except PayErr PPConfig :=
  exceptKeyError
    (if app.config "PAYMENT_API" = some "PayPal" then PayPalGateway.init app
     else .error .keyError)

/-- The facade's state after a successful `init_app`. -/
structure PaymentsState where
  gateway : PPConfig
  testing : Option String
deriving DecidableEq

/-- Source `Payments.init_app`: `self._init_gateway(app)` then
`self.testing = app.config.get('TESTING')`. -/
def Payments.init_app (app : App) : Except PayErr PaymentsState :=
  match Payments._init_gateway app with
  | .error e => .error e
  | .ok gw => .ok ⟨gw, app.config "TESTING"⟩

/-! ### Attribute-bag lemmas -/

theorem getattr_setattr_same (d : Transaction) (k : String) (v : PyVal) :
    getattr (setattr d k v) k = some v := by
  induction d with
  | nil => simp [getattr, setattr]
  | cons kv rest ih =>
    by_cases h : kv.1 = k
    · simp [getattr, setattr, h]
    · simp [getattr, setattr, h, ih]

theorem getattr_setattr_ne (d : Transaction) (k k' : String) (v : PyVal)
    (h : k' ≠ k) : getattr (setattr d k v) k' = getattr d k' := by
  have h2 : ¬ (k = k') := fun hh => h hh.symm
  induction d with
  | nil => simp [getattr, setattr, h2]
  | cons kv rest ih =>
    by_cases hk : kv.1 = k
    · simp [getattr, setattr, hk, h2]
    · by_cases hk' : kv.1 = k'
      · simp [getattr, setattr, hk, hk', h]
      · simp [getattr, setattr, hk, hk', ih]

/-- Attaching `token` and `next` leaves every other attribute unchanged. -/
theorem getattr_token_next_frame (trans : Transaction) (a b : PyVal) (k : String)
    (h1 : k ≠ "token") (h2 : k ≠ "next") :
    getattr (setattr (setattr trans "token" a) "next" b) k = getattr trans k := by
  rw [getattr_setattr_ne _ _ _ _ h2, getattr_setattr_ne _ _ _ _ h1]

/-- The constructor forces `authorised` to `False` on the fresh transaction. -/
theorem getattr_init_authorised (kwargs : List (String × PyVal)) :
    getattr (Transaction.init kwargs) "authorised" = some (PyVal.bool false) := by
  unfold Transaction.init
  exact getattr_setattr_same _ _ _

/-- What a successful `_setupExpressTransfer` returns, explicitly. -/
theorem setupExpressTransfer_ok_eq (iface : PayPalInterface) (trans out : Transaction)
    (h : PayPalGateway._setupExpressTransfer iface trans = .ok out) :
    out = setattr (setattr trans "token"
        (PyVal.str (iface.set_express_checkout (expressParams trans)).token)) "next"
        (PyVal.str (iface.generate_express_checkout_redirect_url
          (iface.set_express_checkout (expressParams trans)).token)) := by
  unfold PayPalGateway._setupExpressTransfer at h
  simp only [Except.ok.injEq] at h
  exact h.symm

/-- What a successful `_authoriseExpress` returns, explicitly. -/
theorem authoriseExpress_ok_eq (iface : PayPalInterface) (trans out : Transaction)
    (action : String) (tok p a : PyVal)
    (htok : getattr trans "token" = some tok)
    (hp : getattr trans "payerid" = some p)
    (ha : getattr trans "amt" = some a)
    (h : PayPalGateway._authoriseExpress iface trans action = .ok out) :
    out = setattr (setattr (setattr trans "transactionid"
        (PyVal.str (iface.do_express_checkout_payment tok action p a "JPY").TRANSACTIONID))
        "raw" (PyVal.resp (iface.do_express_checkout_payment tok action p a "JPY")))
        "authorised" (PyVal.bool true) := by
  unfold PayPalGateway._authoriseExpress at h
  rw [htok, hp, ha] at h
  simp only [Except.ok.injEq] at h
  exact h.symm

/-- Lemma: `_authoriseExpress` on a transaction without an `amt` attribute raises
`AttributeError`. -/
theorem authoriseExpress_missing_amt (iface : PayPalInterface) (trans : Transaction)
    (action : String) (tok p : PyVal)
    (htok : getattr trans "token" = some tok)
    (hp : getattr trans "payerid" = some p)
    (ha : getattr trans "amt" = none) :
    PayPalGateway._authoriseExpress iface trans action = .error (.attributeError "amt") := by
  unfold PayPalGateway._authoriseExpress
  rw [htok, hp, ha]

/-- A concrete stub processor, used to evaluate the model on closed inputs. -/
def stubInterface : PayPalInterface :=
  ⟨fun _ => ⟨"TOK"⟩, fun tok => String.append "https://redirect/" tok,
   fun _ _ _ _ _ => ⟨"TXN1"⟩⟩

/-! ### Claim theorems -/

/-- C9: `validate()` is a pure read — calling it twice on the same unmodified
transaction returns the same result both times — and in the baseline
implementation that result is `true` for every transaction. -/
theorem validate_idempotent_and_true (t : Transaction) :
    (Transaction.validate t = Transaction.validate t) ∧ Transaction.validate t = true :=
  ⟨rfl, rfl⟩

/-- C10: for every keyword-argument set passed to the `Transaction`
constructor — including one containing `authorised=True` — the freshly
constructed transaction has `authorised == False`: the constructor
unconditionally overwrites any caller-supplied `authorised` value after
merging the field bag. -/
theorem init_forces_authorised_false :
    (∀ kwargs : List (String × PyVal),
      getattr (Transaction.init kwargs) "authorised" = some (PyVal.bool false)) ∧
    getattr (Transaction.init [("authorised", PyVal.bool true)]) "authorised"
      = some (PyVal.bool false) :=
  ⟨fun kwargs => getattr_init_authorised kwargs, getattr_init_authorised _⟩

/-- C1 (code bug): when `validate()` returns false, both facade methods do
fail without ever invoking the bound gateway (the outcome is the same for
every gateway), but the exception is a `NameError` — the raised name
`PaymentTransactionValidationError` is undefined in the module — not the
module's own validation-error class. -/
theorem facade_validateFalse_nameError (validate : Transaction → Bool)
    (gw : Gateway) (trans : Transaction) (h : validate trans = false) :
    Payments.setupRedirect gw validate trans
        = .error (.nameError "PaymentTransactionValidationError") ∧
    Payments.authorise gw validate trans
        = .error (.nameError "PaymentTransactionValidationError") ∧
    Payments.setupRedirect gw validate trans ≠ .error .validationError ∧
    Payments.authorise gw validate trans ≠ .error .validationError := by
  simp [Payments.setupRedirect, Payments.authorise, h]

/-- C1 witness: a concrete spy gateway, an always-false validate, and the
empty transaction. -/
theorem facade_validateFalse_nameError_witness :
    Payments.setupRedirect ⟨fun t => .ok t, fun t => .ok (some t)⟩ (fun _ => false) []
        = .error (.nameError "PaymentTransactionValidationError") ∧
    Payments.authorise ⟨fun t => .ok t, fun t => .ok (some t)⟩ (fun _ => false) []
        = .error (.nameError "PaymentTransactionValidationError") ∧
    Payments.setupRedirect ⟨fun t => .ok t, fun t => .ok (some t)⟩ (fun _ => false) []
        ≠ .error .validationError ∧
    Payments.authorise ⟨fun t => .ok t, fun t => .ok (some t)⟩ (fun _ => false) []
        ≠ .error .validationError :=
  facade_validateFalse_nameError (fun _ => false) _ [] rfl

/-- C2 (code bug): `PayPalGateway.authorise` on a `'Direct'` transaction hits
`pass  # not implemented yet` and returns `None` — a silent normal return with
no error of any kind, for every processor interface, at the gateway and
through the facade alike. -/
theorem authorise_direct_silent_noop (iface : PayPalInterface) :
    PayPalGateway.authorise iface (Transaction.init [("type", PyVal.str "Direct")])
        = .ok none ∧
    Payments.authorise (PayPalGateway.asGateway iface) Transaction.validate
        (Transaction.init [("type", PyVal.str "Direct")]) = .ok none ∧
    ∀ e : PayErr,
      PayPalGateway.authorise iface (Transaction.init [("type", PyVal.str "Direct")])
        ≠ .error e := by
  refine ⟨rfl, rfl, fun e h => ?_⟩
  rw [show PayPalGateway.authorise iface (Transaction.init [("type", PyVal.str "Direct")])
      = .ok none from rfl] at h
  simp at h

/-- C3: for every application configuration whose `PAYMENT_API` value is not a
registered gateway key (including an absent key), `Payments.init_app` raises
`ConfigurationError` and binds no gateway (no partial construction — the
result carries no state). -/
theorem init_app_unknown_key_configurationError (app : App)
    (h : app.config "PAYMENT_API" ≠ some "PayPal") :
    Payments._init_gateway app = .error .configurationError ∧
    Payments.init_app app = .error .configurationError := by
  have h1 : Payments._init_gateway app = .error .configurationError := by
    simp [Payments._init_gateway, h, exceptKeyError]
  exact ⟨h1, by simp [Payments.init_app, h1]⟩

/-- C3 witness: the spec's `"DoesNotExist"` scenario and the absent-key case. -/
theorem init_app_unknown_key_witness :
    Payments.init_app ⟨fun k => if k = "PAYMENT_API" then some "DoesNotExist" else none⟩
      = .error .configurationError ∧
    Payments.init_app ⟨fun _ => none⟩ = .error .configurationError :=
  ⟨(init_app_unknown_key_configurationError _ (by simp)).2,
   (init_app_unknown_key_configurationError _ (by simp)).2⟩

/-- C4 (code bug): a known gateway key with a missing PayPal credential does
not fail with `ConfigurationError`: the `ValueError` from the external config
constructor (per the source's own comment "Need to catch value error and throw
as config error") escapes, because `PayPalGateway.__init__` only catches
`KeyError` and `app.config.get` never raises one. -/
theorem missing_credential_valueError :
    Payments.init_app ⟨fun k =>
        if k = "PAYMENT_API" then some "PayPal"
        else if k = "PAYPAL_API_PWD" then some "pwd"
        else if k = "PAYPAL_API_SIGNATURE" then some "sig"
        else none⟩
      = .error .valueError ∧
    (Except.error PayErr.valueError : Except PayErr PaymentsState)
      ≠ .error .configurationError := by
  refine ⟨rfl, fun h => ?_⟩
  simp at h

/-- C6 (code bug): `PayPalGateway.setupRedirect` on a transaction whose `type`
is not `'Express'` does reject it before touching any field, but with a
`NameError` (the raised `PaymentTransactionValidationError` is undefined),
not the module's validation-error class; the facade propagates the same. -/
theorem gateway_setupRedirect_nonExpress_nameError (iface : PayPalInterface)
    (trans : Transaction) (v : PyVal)
    (h : getattr trans "type" = some v) (hv : v ≠ PyVal.str "Express") :
    PayPalGateway.setupRedirect iface trans
        = .error (.nameError "PaymentTransactionValidationError") ∧
    PayPalGateway.setupRedirect iface trans ≠ .error .validationError ∧
    Payments.setupRedirect (PayPalGateway.asGateway iface) Transaction.validate trans
        = .error (.nameError "PaymentTransactionValidationError") := by
  have h1 : PayPalGateway.setupRedirect iface trans
      = .error (.nameError "PaymentTransactionValidationError") := by
    simp [PayPalGateway.setupRedirect, h, hv]
  refine ⟨h1, by simp [h1], ?_⟩
  simpa [Payments.setupRedirect, Transaction.validate, PayPalGateway.asGateway] using h1

/-- C6 witness: the spec's `Transaction(type="Unknown")` scenario against the
concrete stub processor. -/
theorem gateway_setupRedirect_nonExpress_witness :
    PayPalGateway.setupRedirect stubInterface (Transaction.init [("type", PyVal.str "Unknown")])
        = .error (.nameError "PaymentTransactionValidationError") ∧
    PayPalGateway.setupRedirect stubInterface (Transaction.init [("type", PyVal.str "Unknown")])
        ≠ .error .validationError ∧
    Payments.setupRedirect (PayPalGateway.asGateway stubInterface) Transaction.validate
        (Transaction.init [("type", PyVal.str "Unknown")])
        = .error (.nameError "PaymentTransactionValidationError") :=
  gateway_setupRedirect_nonExpress_nameError stubInterface _ (PyVal.str "Unknown")
    rfl (by decide)

/-- C7: `setupRedirect` — at the gateway and through the facade, on the
successful Express path (every failure path returns no transaction at all and
mutates nothing) — never changes the transaction's `authorised` field, and
only adds `token` and `next`: every other field is exactly as before. -/
theorem setupRedirect_preserves_authorised (iface : PayPalInterface)
    (validate : Transaction → Bool) (trans out : Transaction)
    (h : PayPalGateway.setupRedirect iface trans = .ok out ∨
      Payments.setupRedirect (PayPalGateway.asGateway iface) validate trans = .ok out) :
    getattr out "authorised" = getattr trans "authorised" ∧
    ∀ k : String, k ≠ "token" → k ≠ "next" → getattr out k = getattr trans k := by
  have hg : PayPalGateway.setupRedirect iface trans = .ok out := by
    rcases h with h | h
    · exact h
    · by_cases hv : validate trans
      · simpa [Payments.setupRedirect, hv, PayPalGateway.asGateway] using h
      · simp [Payments.setupRedirect, hv] at h
  unfold PayPalGateway.setupRedirect at hg
  split at hg
  · simp at hg
  · split at hg
    · have hout := setupExpressTransfer_ok_eq iface trans out hg
      subst hout
      exact ⟨getattr_token_next_frame _ _ _ _ (by decide) (by decide),
        fun k h1 h2 => getattr_token_next_frame _ _ _ _ h1 h2⟩
    · simp at hg

/-- C7 witness: the `authorised` field of the concrete Express setup result
equals that of the input transaction. -/
theorem setupRedirect_preserves_authorised_witness :
    getattr (setattr (setattr (Transaction.init [("type", PyVal.str "Express")])
        "token" (PyVal.str "TOK")) "next" (PyVal.str "https://redirect/TOK")) "authorised"
      = getattr (Transaction.init [("type", PyVal.str "Express")]) "authorised" :=
  (setupRedirect_preserves_authorised stubInterface Transaction.validate
    (Transaction.init [("type", PyVal.str "Express")]) _ (Or.inl rfl)).1

/-- C5: an Express transaction that succeeds through `setupRedirect` carries
`token` and `next` with `authorised` still false; after a payer identifier is
added and `authorise` succeeds, the result has `authorised = true` and a
non-empty `transactionid` (the stub processor's identifier), and `authorised`
was false at every state before that point. -/
theorem express_roundtrip (iface : PayPalInterface) (kwargs : List (String × PyVal))
    (pid : String) (t1 t2 : Transaction)
    (htype : getattr (Transaction.init kwargs) "type" = some (PyVal.str "Express"))
    (h1 : Payments.setupRedirect (PayPalGateway.asGateway iface) Transaction.validate
        (Transaction.init kwargs) = .ok t1)
    (h2 : Payments.authorise (PayPalGateway.asGateway iface) Transaction.validate
        (setattr t1 "payerid" (PyVal.str pid)) = .ok (some t2))
    (hid : ∀ (tok : PyVal) (act : String) (p a : PyVal) (c : String),
        (iface.do_express_checkout_payment tok act p a c).TRANSACTIONID ≠ "") :
    (getattr t1 "token").isSome ∧ (getattr t1 "next").isSome ∧
    getattr (Transaction.init kwargs) "authorised" = some (PyVal.bool false) ∧
    getattr t1 "authorised" = some (PyVal.bool false) ∧
    getattr (setattr t1 "payerid" (PyVal.str pid)) "authorised" = some (PyVal.bool false) ∧
    getattr t2 "authorised" = some (PyVal.bool true) ∧
    ∃ s : String, getattr t2 "transactionid" = some (PyVal.str s) ∧ s ≠ "" := by
  have h0 : getattr (Transaction.init kwargs) "authorised" = some (PyVal.bool false) :=
    getattr_init_authorised kwargs
  generalize hgen : Transaction.init kwargs = t0 at htype h1 h0 ⊢
  have hg1 : PayPalGateway.setupRedirect iface t0 = .ok t1 := by
    simpa [Payments.setupRedirect, Transaction.validate, PayPalGateway.asGateway] using h1
  have hset : PayPalGateway._setupExpressTransfer iface t0 = .ok t1 := by
    unfold PayPalGateway.setupRedirect at hg1
    rw [htype] at hg1
    simpa using hg1
  have ht1 := setupExpressTransfer_ok_eq iface t0 t1 hset
  subst ht1
  have htok : getattr (setattr (setattr t0 "token"
      (PyVal.str (iface.set_express_checkout (expressParams t0)).token)) "next"
      (PyVal.str (iface.generate_express_checkout_redirect_url
        (iface.set_express_checkout (expressParams t0)).token))) "token"
      = some (PyVal.str (iface.set_express_checkout (expressParams t0)).token) := by
    rw [getattr_setattr_ne _ _ _ _ (by decide), getattr_setattr_same]
  have hnext : getattr (setattr (setattr t0 "token"
      (PyVal.str (iface.set_express_checkout (expressParams t0)).token)) "next"
      (PyVal.str (iface.generate_express_checkout_redirect_url
        (iface.set_express_checkout (expressParams t0)).token))) "next"
      = some (PyVal.str (iface.generate_express_checkout_redirect_url
        (iface.set_express_checkout (expressParams t0)).token)) :=
    getattr_setattr_same _ _ _
  have hauth1 : getattr (setattr (setattr t0 "token"
      (PyVal.str (iface.set_express_checkout (expressParams t0)).token)) "next"
      (PyVal.str (iface.generate_express_checkout_redirect_url
        (iface.set_express_checkout (expressParams t0)).token))) "authorised"
      = some (PyVal.bool false) := by
    rw [getattr_token_next_frame _ _ _ _ (by decide) (by decide)]
    exact h0
  refine ⟨by simp [htok], by simp [hnext], h0, hauth1, ?_, ?_⟩
  · rw [getattr_setattr_ne _ _ _ _ (by decide)]
    exact hauth1
  · -- the authorise leg
    have hg2 : PayPalGateway.authorise iface (setattr (setattr (setattr t0 "token"
        (PyVal.str (iface.set_express_checkout (expressParams t0)).token)) "next"
        (PyVal.str (iface.generate_express_checkout_redirect_url
          (iface.set_express_checkout (expressParams t0)).token)))
        "payerid" (PyVal.str pid)) = .ok (some t2) := by
      simpa [Payments.authorise, Transaction.validate, PayPalGateway.asGateway] using h2
    have hty2 : getattr (setattr (setattr (setattr t0 "token"
        (PyVal.str (iface.set_express_checkout (expressParams t0)).token)) "next"
        (PyVal.str (iface.generate_express_checkout_redirect_url
          (iface.set_express_checkout (expressParams t0)).token)))
        "payerid" (PyVal.str pid)) "type" = some (PyVal.str "Express") := by
      rw [getattr_setattr_ne _ _ _ _ (by decide),
        getattr_token_next_frame _ _ _ _ (by decide) (by decide)]
      exact htype
    have htok2 : getattr (setattr (setattr (setattr t0 "token"
        (PyVal.str (iface.set_express_checkout (expressParams t0)).token)) "next"
        (PyVal.str (iface.generate_express_checkout_redirect_url
          (iface.set_express_checkout (expressParams t0)).token)))
        "payerid" (PyVal.str pid)) "token"
        = some (PyVal.str (iface.set_express_checkout (expressParams t0)).token) := by
      rw [getattr_setattr_ne _ _ _ _ (by decide)]
      exact htok
    have hpay2 : getattr (setattr (setattr (setattr t0 "token"
        (PyVal.str (iface.set_express_checkout (expressParams t0)).token)) "next"
        (PyVal.str (iface.generate_express_checkout_redirect_url
          (iface.set_express_checkout (expressParams t0)).token)))
        "payerid" (PyVal.str pid)) "payerid" = some (PyVal.str pid) :=
      getattr_setattr_same _ _ _
    have hauth2 : PayPalGateway._authoriseExpress iface (setattr (setattr (setattr t0 "token"
        (PyVal.str (iface.set_express_checkout (expressParams t0)).token)) "next"
        (PyVal.str (iface.generate_express_checkout_redirect_url
          (iface.set_express_checkout (expressParams t0)).token)))
        "payerid" (PyVal.str pid)) "Sale" = .ok t2 := by
      unfold PayPalGateway.authorise at hg2
      rw [hty2] at hg2
      simp only [] at hg2
      cases hr : PayPalGateway._authoriseExpress iface (setattr (setattr (setattr t0 "token"
          (PyVal.str (iface.set_express_checkout (expressParams t0)).token)) "next"
          (PyVal.str (iface.generate_express_checkout_redirect_url
            (iface.set_express_checkout (expressParams t0)).token)))
          "payerid" (PyVal.str pid)) "Sale" with
      | error e => rw [hr] at hg2; simp [Except.map] at hg2
      | ok u => rw [hr] at hg2; simp [Except.map] at hg2; rw [hg2]
    cases hamt : getattr (setattr (setattr (setattr t0 "token"
        (PyVal.str (iface.set_express_checkout (expressParams t0)).token)) "next"
        (PyVal.str (iface.generate_express_checkout_redirect_url
          (iface.set_express_checkout (expressParams t0)).token)))
        "payerid" (PyVal.str pid)) "amt" with
    | none =>
      rw [authoriseExpress_missing_amt iface _ "Sale" _ _ htok2 hpay2 hamt] at hauth2
      simp at hauth2
    | some amt =>
      have ht2 := authoriseExpress_ok_eq iface _ t2 "Sale" _ _ _ htok2 hpay2 hamt hauth2
      subst ht2
      refine ⟨getattr_setattr_same _ _ _, ?_⟩
      refine ⟨(iface.do_express_checkout_payment
        (PyVal.str (iface.set_express_checkout (expressParams t0)).token) "Sale"
        (PyVal.str pid) amt "JPY").TRANSACTIONID, ?_, hid _ _ _ _ _⟩
      rw [getattr_setattr_ne _ _ _ _ (by decide), getattr_setattr_ne _ _ _ _ (by decide),
        getattr_setattr_same]

/-- C5 witness: the spec scenario against the concrete stub processor —
`Transaction(type="Express", amt=10)`, setup, add `payerid="PAYER1"`,
authorise; the final state has `authorised = true`. -/
theorem express_roundtrip_witness :
    getattr [("type", PyVal.str "Express"), ("amt", PyVal.num 10),
      ("authorised", PyVal.bool true), ("token", PyVal.str "TOK"),
      ("next", PyVal.str "https://redirect/TOK"), ("payerid", PyVal.str "PAYER1"),
      ("transactionid", PyVal.str "TXN1"), ("raw", PyVal.resp ⟨"TXN1"⟩)] "authorised"
      = some (PyVal.bool true) :=
  (express_roundtrip stubInterface [("type", PyVal.str "Express"), ("amt", PyVal.num 10)]
    "PAYER1"
    [("type", PyVal.str "Express"), ("amt", PyVal.num 10), ("authorised", PyVal.bool false),
      ("token", PyVal.str "TOK"), ("next", PyVal.str "https://redirect/TOK")]
    [("type", PyVal.str "Express"), ("amt", PyVal.num 10), ("authorised", PyVal.bool true),
      ("token", PyVal.str "TOK"), ("next", PyVal.str "https://redirect/TOK"),
      ("payerid", PyVal.str "PAYER1"), ("transactionid", PyVal.str "TXN1"),
      ("raw", PyVal.resp ⟨"TXN1"⟩)]
    rfl rfl rfl (fun tok act p a c => by
      rw [show (stubInterface.do_express_checkout_payment tok act p a c).TRANSACTIONID
        = "TXN1" from rfl]
      decide)).2.2.2.2.2.1
